import Mathlib

/-!
Verification of the Translateme frontend against its specification.

The definitions below are shallow embeddings of the TypeScript source:
  * `SubtitlePreview.tsx` — `formatTime`, `categorizeFlags`, `getFlagBadgeClass`,
    per-segment gender cell logic;
  * `GenderToggle.tsx` — `GenderToggle`, `GenderIndicator`, `handleGenderChange`;
  * `ConfigPanel.tsx` — the constraint `onChange` handlers;
  * `useJob.ts` — the status-polling effect;
  * the backend Batch Auto-Fixer (absent from the repository snapshot) is
    modelled from the specification, as marked on its definition.

JavaScript strings are embedded as Lean `String`, numbers as `Nat`/`Int`/`ℚ`
(no floating point is needed at the precision the claims use), `null`/
`undefined` as `Option`, and thrown exceptions as `Except`.
-/

namespace Translateme

/-- JS `String.prototype.startsWith`: character-sequence prefix test. -/
def jsStartsWith (s p : String) : Bool :=
  p.data.isPrefixOf s.data

/-- Result record of `categorizeFlags` (SubtitlePreview.tsx). -/
structure CategorizedFlags where
  errors : List String
  autoFixed : List String
  manualFixed : List String
deriving DecidableEq, Repr

/-- The `categorizeFlags` from SubtitlePreview.tsx: the imperative loop pushing
each flag onto one of three arrays, written as structural recursion.  The
source's final two branches (`flag !== 'UNFIXABLE'` and its `else`) both push
onto `errors`; the branch shape is kept. -/
def categorizeFlags : List String → CategorizedFlags
  | [] => ⟨[], [], []⟩
  | flag :: rest =>
    let r := categorizeFlags rest
    if jsStartsWith flag "CONFORMED:" then
      { r with autoFixed := flag :: r.autoFixed }
    else if jsStartsWith flag "FIXED:" then
      { r with manualFixed := flag :: r.manualFixed }
    else if flag ≠ "UNFIXABLE" then
      { r with errors := flag :: r.errors }
    else
      { r with errors := flag :: r.errors }

/-- The `getFlagBadgeClass` from SubtitlePreview.tsx. -/
def getFlagBadgeClass (flag : String) : String :=
  if jsStartsWith flag "CONFORMED:" then "flag-auto-fixed"
  else if jsStartsWith flag "FIXED:" then "flag-manual-fixed"
  else if flag = "UNFIXABLE" then "flag-unfixable"
  else "flag-error"

/-- JS `String.prototype.padStart(n, c)`: pad on the left up to length `n`;
a string already at least `n` long is returned unchanged. -/
def padStart (s : String) (n : Nat) (c : Char) : String :=
  ⟨List.replicate (n - s.length) c ++ s.data⟩

/-- The `formatTime` from SubtitlePreview.tsx, on non-negative integer inputs. -/
def formatTime (ms : Nat) : String :=
  let seconds := ms / 1000
  let minutes := seconds / 60
  let hours := minutes / 60
  let ss := padStart (toString (seconds % 60)) 2 '0'
  let mm := padStart (toString (minutes % 60)) 2 '0'
  let hh := padStart (toString hours) 2 '0'
  let mmm := padStart (toString (ms % 1000)) 3 '0'
  hh ++ ":" ++ mm ++ ":" ++ ss ++ "." ++ mmm

/- Helper lemmas about the flag taxonomy. -/

lemma conformed_fixed_exclusive {flag : String}
    (h1 : jsStartsWith flag "CONFORMED:" = true)
    (h2 : jsStartsWith flag "FIXED:" = true) : False := by
  unfold jsStartsWith at h1 h2
  rw [ List.isPrefixOf_iff_prefix] at h1 h2
  rcases List.prefix_or_prefix_of_prefix h1 h2 with h | h
  · exact absurd h (by decide)
  · exact absurd h (by decide)

lemma unfixable_not_conformed :
    jsStartsWith "UNFIXABLE" "CONFORMED:" = false := by decide

lemma unfixable_not_fixed :
    jsStartsWith "UNFIXABLE" "FIXED:" = false := by decide

/-- C1.  `getFlagBadgeClass` realises the spec's `qc_flags` taxonomy exactly:
the badge class is `flag-auto-fixed` iff the flag starts with `CONFORMED:`
(automatically applied fix), `flag-manual-fixed` iff it starts with `FIXED:`
(manually applied fix), `flag-unfixable` iff it is exactly `UNFIXABLE`, and
`flag-error` (unresolved violation) iff none of the above. -/
theorem flagBadge_matches_taxonomy (flag : String) :
    (getFlagBadgeClass flag = "flag-auto-fixed" ↔ jsStartsWith flag "CONFORMED:" = true)
    ∧ (getFlagBadgeClass flag = "flag-manual-fixed" ↔ jsStartsWith flag "FIXED:" = true)
    ∧ (getFlagBadgeClass flag = "flag-unfixable" ↔ flag = "UNFIXABLE")
    ∧ (getFlagBadgeClass flag = "flag-error" ↔
        (jsStartsWith flag "CONFORMED:" = false ∧ jsStartsWith flag "FIXED:" = false ∧
          flag ≠ "UNFIXABLE")) := by
  unfold getFlagBadgeClass
  rcases hc : jsStartsWith flag "CONFORMED:" with _ | _
  · rcases hf : jsStartsWith flag "FIXED:" with _ | _
    · by_cases hu : flag = "UNFIXABLE" <;> simp [hu]
    · have hu : flag ≠ "UNFIXABLE" := by
        intro h; rw [h] at hf; exact absurd (unfixable_not_fixed ▸ hf) (by decide)
      simp [hu]
  · have hf : jsStartsWith flag "FIXED:" = false := by
      rcases h : jsStartsWith flag "FIXED:" with _ | _
      · rfl
      · exact absurd (conformed_fixed_exclusive hc h) (fun x => x)
    have hu : flag ≠ "UNFIXABLE" := by
      intro h; rw [h] at hc; exact absurd (unfixable_not_conformed ▸ hc) (by decide)
    simp [hc, hf, hu]

/-- The three predicates the categorisation chain tests, in source order. -/
def isAutoFlag (flag : String) : Bool := jsStartsWith flag "CONFORMED:"

def isManualFlag (flag : String) : Bool :=
  !jsStartsWith flag "CONFORMED:" && jsStartsWith flag "FIXED:"

def isErrorFlag (flag : String) : Bool :=
  !jsStartsWith flag "CONFORMED:" && !jsStartsWith flag "FIXED:"

lemma categorizeFlags_filter (flags : List String) :
    (categorizeFlags flags).errors = flags.filter isErrorFlag
    ∧ (categorizeFlags flags).autoFixed = flags.filter isAutoFlag
    ∧ (categorizeFlags flags).manualFixed = flags.filter isManualFlag := by
  induction flags with
  | nil => exact ⟨rfl, rfl, rfl⟩
  | cons flag rest ih =>
    obtain ⟨ihe, iha, ihm⟩ := ih
    unfold categorizeFlags
    rcases hc : jsStartsWith flag "CONFORMED:" with _ | _
    · rcases hf : jsStartsWith flag "FIXED:" with _ | _
      · by_cases hu : flag ≠ "UNFIXABLE" <;>
          simp [hc, hf, hu, isErrorFlag, isAutoFlag, isManualFlag,
            List.filter_cons, ihe, iha, ihm]
      · simp [hc, hf, isErrorFlag, isAutoFlag, isManualFlag,
          List.filter_cons, ihe, iha, ihm]
    · simp [hc, isErrorFlag, isAutoFlag, isManualFlag,
        List.filter_cons, ihe, iha, ihm]

lemma flag_predicates_partition (flag : String) :
    (if isErrorFlag flag then 1 else 0) + (if isAutoFlag flag then 1 else 0)
      + (if isManualFlag flag then 1 else 0) = 1 := by
  unfold isErrorFlag isAutoFlag isManualFlag
  rcases jsStartsWith flag "CONFORMED:" with _ | _ <;>
    rcases jsStartsWith flag "FIXED:" with _ | _ <;> simp

lemma flag_filter_length_sum : ∀ flags : List String,
    (flags.filter isErrorFlag).length + (flags.filter isAutoFlag).length
      + (flags.filter isManualFlag).length = flags.length
  | [] => rfl
  | flag :: rest => by
    have hp := flag_predicates_partition flag
    have ih := flag_filter_length_sum rest
    simp only [List.filter_cons, List.length_cons]
    rcases h1 : isErrorFlag flag with _ | _ <;>
      rcases h2 : isAutoFlag flag with _ | _ <;>
        rcases h3 : isManualFlag flag with _ | _ <;>
          simp [h1, h2, h3] at hp ⊢ <;> omega

/-- C8.  `categorizeFlags` is an order-preserving partition of its input:
each output list is the `filter` of the input by the corresponding branch
predicate (hence keeps the input's relative order, and the predicates are
mutually exclusive and exhaustive), and the three lengths sum to the input
length. -/
theorem categorizeFlags_partition (flags : List String) :
    (categorizeFlags flags).errors = flags.filter isErrorFlag
    ∧ (categorizeFlags flags).autoFixed = flags.filter isAutoFlag
    ∧ (categorizeFlags flags).manualFixed = flags.filter isManualFlag
    ∧ (categorizeFlags flags).errors.length + (categorizeFlags flags).autoFixed.length
        + (categorizeFlags flags).manualFixed.length = flags.length := by
  obtain ⟨he, ha, hm⟩ := categorizeFlags_filter flags
  refine ⟨he, ha, hm, ?_⟩
  rw [he, ha, hm]
  exact flag_filter_length_sum flags

/-- C10.  `formatTime` renders `hh:mm:ss.mmm` with `hh = ⌊ms/3600000⌋` padded
to at least two digits, `mm = ⌊ms/60000⌋ % 60` and `ss = ⌊ms/1000⌋ % 60`
padded to two digits, and `mmm = ms % 1000` padded to three digits. -/
theorem formatTime_spec (ms : Nat) :
    formatTime ms =
      padStart (toString (ms / 3600000)) 2 '0' ++ ":" ++
      padStart (toString (ms / 60000 % 60)) 2 '0' ++ ":" ++
      padStart (toString (ms / 1000 % 60)) 2 '0' ++ "." ++
      padStart (toString (ms % 1000)) 3 '0' := by
  have h1 : ms / 1000 / 60 = ms / 60000 := by
    rw [Nat.div_div_eq_div_mul]
  have h2 : ms / 1000 / 60 / 60 = ms / 3600000 := by
    rw [Nat.div_div_eq_div_mul, Nat.div_div_eq_div_mul]
  show padStart (toString (ms / 1000 / 60 / 60)) 2 '0' ++ ":" ++
      padStart (toString (ms / 1000 / 60 % 60)) 2 '0' ++ ":" ++
      padStart (toString (ms / 1000 % 60)) 2 '0' ++ "." ++
      padStart (toString (ms % 1000)) 3 '0' = _
  rw [h2, h1]

/-! ### Gender model (types/index.ts, GenderToggle.tsx, SubtitlePreview.tsx) -/

/-- The `GenderForm` from types/index.ts. -/
inductive GenderForm
  | masculine
  | feminine
  | neutral
  | unknown
deriving DecidableEq, Repr

/-- The TS string value behind a `GenderForm` (used in class names/titles). -/
def GenderForm.str : GenderForm → String
  | .masculine => "masculine"
  | .feminine => "feminine"
  | .neutral => "neutral"
  | .unknown => "unknown"

/-- The `GenderAlternative` from types/index.ts. -/
structure GenderAlternative where
  gender : GenderForm
  text : String
  confidence : ℚ
deriving DecidableEq, Repr

/-- JS `Math.round`: round half towards positive infinity. -/
def jsRound (q : ℚ) : ℤ := ⌊q + 1 / 2⌋

/-- Length of a possibly-`undefined` array (`!xs || xs.length < 2` tests). -/
def altLen (o : Option (List GenderAlternative)) : Nat :=
  match o with
  | none => 0
  | some l => l.length

/-- The confidence badge class in `GenderToggle`'s header:
`confidence < 0.7 ? 'low' : 'high'`. -/
def genderConfidenceClass (confidence : ℚ) : String :=
  if confidence < 7 / 10 then "low" else "high"

/-- What `GenderToggle` renders when it renders at all. -/
structure GenderToggleView where
  confidenceClass : String
  confidencePercent : ℤ
  masculineButton : Option String
  feminineButton : Option String
  masculineActive : Bool
  feminineActive : Bool
deriving DecidableEq, Repr

/-- The `GenderToggle` from GenderToggle.tsx: `null` (here `none`) when
`!alternatives || alternatives.length < 2`, otherwise the rendered view with
the confidence badge and one button per found alternative. -/
def GenderToggleRender (activeGender : GenderForm) (confidence : ℚ)
    (alternatives : Option (List GenderAlternative)) : Option GenderToggleView :=
  match alternatives with
  | none => none
  | some alts =>
    if alts.length < 2 then none
    else
      some
        { confidenceClass := genderConfidenceClass confidence
          confidencePercent := jsRound (confidence * 100)
          masculineButton :=
            (alts.find? (fun a => a.gender == GenderForm.masculine)).map (fun a => a.text)
          feminineButton :=
            (alts.find? (fun a => a.gender == GenderForm.feminine)).map (fun a => a.text)
          masculineActive := activeGender == GenderForm.masculine
          feminineActive := activeGender == GenderForm.feminine }

/-- What `GenderIndicator` renders when it renders at all. -/
structure GenderIndicatorView where
  className : String
  title : String
  icon : Char
  showAmbiguousDot : Bool
deriving DecidableEq, Repr

/-- The `GenderIndicator` from GenderToggle.tsx: `null` when `!hasAlternatives`,
otherwise a button whose class/title/dot depend on
`isAmbiguous = confidence < 0.7`. -/
def GenderIndicatorRender (activeGender : GenderForm) (confidence : ℚ)
    (hasAlternatives : Bool) : Option GenderIndicatorView :=
  if !hasAlternatives then none
  else
    let isAmbiguous := confidence < 7 / 10
    some
      { className :=
          "gender-indicator " ++ (if isAmbiguous then "ambiguous" else "") ++ " "
            ++ activeGender.str
        title :=
          "Gender: " ++ activeGender.str ++ " (" ++ toString (jsRound (confidence * 100))
            ++ "% confident)" ++ (if isAmbiguous then " - Click to change" else "")
        icon :=
          if activeGender == GenderForm.masculine then '♂'
          else if activeGender == GenderForm.feminine then '♀'
          else '?'
        showAmbiguousDot := isAmbiguous }

/-- The `SubtitleSegment` from types/index.ts (fields the preview uses). -/
structure SubtitleSegment where
  index : ℤ
  start_ms : ℕ
  end_ms : ℕ
  text : String
  translated_text : Option String
  qc_flags : List String
  gender_alternatives : Option (List GenderAlternative)
  active_gender : Option GenderForm
  gender_confidence : Option ℚ
deriving DecidableEq

/-- The `seg.gender_alternatives && seg.gender_alternatives.length > 1` from
SubtitlePreview.tsx. -/
def segHasGenderAlts (seg : SubtitleSegment) : Bool :=
  match seg.gender_alternatives with
  | none => false
  | some l => decide (l.length > 1)

/-- The `hasAnyGenderAlternatives` from SubtitlePreview.tsx. -/
def hasAnyGenderAlternatives (segments : List SubtitleSegment) : Bool :=
  segments.any (fun seg => segHasGenderAlts seg)

/-- The gender cell of a preview row: missing column, empty cell, or an
indicator. -/
inductive GenderCell
  | absent
  | empty
  | indicator (view : GenderIndicatorView)
deriving DecidableEq

/-- The gender cell SubtitlePreview.tsx renders for one segment: the column
exists only if some segment has >1 alternatives; within it the indicator is
rendered only if this segment has >1 alternatives, with the source's
`|| 'unknown'` and `|| 1` defaults. -/
def genderCellFor (segments : List SubtitleSegment) (seg : SubtitleSegment) :
    GenderCell :=
  if hasAnyGenderAlternatives segments then
    if segHasGenderAlts seg then
      match GenderIndicatorRender (seg.active_gender.getD GenderForm.unknown)
          (seg.gender_confidence.getD 1) true with
      | some view => GenderCell.indicator view
      | none => GenderCell.empty
    else GenderCell.empty
  else GenderCell.absent

/-- C3.  The `confidence < 0.7` threshold marks a guess as ambiguous exactly
when confidence is below 0.7 — the toggle's badge reads `low` iff
`confidence < 0.7` (and `high` otherwise), the indicator's ambiguous dot is
shown iff `confidence < 0.7` — and the threshold is display-only: whether the
indicator renders at all depends only on `hasAlternatives`, never on the
confidence value. -/
theorem ambiguous_iff_confidence_lt (activeGender : GenderForm) (confidence : ℚ) :
    (genderConfidenceClass confidence = "low" ↔ confidence < 7 / 10)
    ∧ (genderConfidenceClass confidence = "high" ↔ ¬confidence < 7 / 10)
    ∧ ((GenderIndicatorRender activeGender confidence true).map
        (fun v => v.showAmbiguousDot) = some (decide (confidence < 7 / 10)))
    ∧ (∀ hasAlternatives : Bool,
        (GenderIndicatorRender activeGender confidence hasAlternatives).isSome
          = hasAlternatives) := by
  refine ⟨?_, ?_, ?_, ?_⟩
  · unfold genderConfidenceClass
    by_cases h : confidence < 7 / 10 <;> simp [h]
  · unfold genderConfidenceClass
    by_cases h : confidence < 7 / 10 <;> simp [h]
  · unfold GenderIndicatorRender
    by_cases h : confidence < 7 / 10 <;> simp [h]
  · intro hasAlternatives
    unfold GenderIndicatorRender
    rcases hasAlternatives with _ | _ <;> simp

/-- C4.  When a segment carries fewer than two gender alternatives, gender
controls are inert: `GenderToggle` renders nothing, and the subtitle preview
row shows no gender indicator for that segment. -/
theorem gender_controls_inert (activeGender : GenderForm) (confidence : ℚ)
    (alternatives : Option (List GenderAlternative))
    (segments : List SubtitleSegment) (seg : SubtitleSegment)
    (h1 : altLen alternatives < 2)
    (h2 : altLen seg.gender_alternatives < 2) :
    GenderToggleRender activeGender confidence alternatives = none
    ∧ ∀ view, genderCellFor segments seg ≠ GenderCell.indicator view := by
  constructor
  · unfold GenderToggleRender
    match alternatives, h1 with
    | none, _ => rfl
    | some alts, h1 => simp only [altLen] at h1; simp [h1]
  · intro view
    have hseg : segHasGenderAlts seg = false := by
      unfold segHasGenderAlts
      match seg.gender_alternatives, h2 with
      | none, _ => rfl
      | some l, h2 => simp only [altLen] at h2; simp; omega
    unfold genderCellFor
    rcases hany : hasAnyGenderAlternatives segments with _ | _ <;>
      simp [hseg]

/-- Witness for C4 at a concrete segment with an empty alternatives list. -/
theorem gender_controls_inert_witness :
    GenderToggleRender GenderForm.masculine (1 / 2) (some []) = none
    ∧ ∀ view,
        genderCellFor []
            { index := 1, start_ms := 0, end_ms := 1000, text := "hi"
              translated_text := none, qc_flags := [], gender_alternatives := some []
              active_gender := none, gender_confidence := none }
          ≠ GenderCell.indicator view :=
  gender_controls_inert GenderForm.masculine (1 / 2) (some []) []
    { index := 1, start_ms := 0, end_ms := 1000, text := "hi"
      translated_text := none, qc_flags := [], gender_alternatives := some []
      active_gender := none, gender_confidence := none }
    (by decide) (by decide)

/-! ### Single-cue set-gender (GenderToggle.tsx `handleGenderChange`) -/

/-- The `QCSummary` from types/index.ts (`by_type` as an association list). -/
structure QCSummary where
  total_cues : ℕ
  issues_count : ℕ
  errors_count : ℕ
  warnings_count : ℕ
  passed : Bool
  by_type : List (String × ℕ)
deriving DecidableEq, Repr

/-- The `SetGenderResponse` from types/index.ts. -/
structure SetGenderResponse where
  status : String
  cue_index : ℕ
  new_gender : GenderForm
  new_text : String
  qc_summary : QCSummary
deriving DecidableEq, Repr

/-- Observable outcome of one `handleGenderChange` call: nothing happened, the
parent was notified of the new text/gender, or an error message was shown. -/
inductive SetGenderOutcome
  | noop
  | changed (newText : String) (newGender : GenderForm)
  | errorMsg (msg : String)
deriving DecidableEq, Repr

/-- One `handleGenderChange` call: whether the `setSegmentGender` request was
issued, and what the caller observed. -/
structure GenderChangeResult where
  requestIssued : Bool
  outcome : SetGenderOutcome
deriving DecidableEq, Repr

/-- The `handleGenderChange` from GenderToggle.tsx.  The network call is embedded
as its result `api : Except String SetGenderResponse` (a thrown error carries
its message).  The source's first line is
`if (gender === activeGender) return;`: no request is made in that case. -/
def handleGenderChange (activeGender gender : GenderForm)
    (api : Except String SetGenderResponse) : GenderChangeResult :=
  if gender == activeGender then { requestIssued := false, outcome := .noop }
  else
    match api with
    | Except.ok r => { requestIssued := true, outcome := .changed r.new_text r.new_gender }
    | Except.error e => { requestIssued := true, outcome := .errorMsg e }

/-- A concrete successful backend response, for the C2 counterexample. -/
def sampleSetGenderResponse : SetGenderResponse :=
  { status := "ok", cue_index := 3, new_gender := GenderForm.feminine
    new_text := "texte au féminin"
    qc_summary :=
      { total_cues := 1, issues_count := 0, errors_count := 0, warnings_count := 0
        passed := true, by_type := [] } }

/-- C2 counterexample.  Selecting the currently active gender does NOT issue a
set-gender request: the handler returns before calling `setSegmentGender`, so
the selection is a silent no-op and no outcome is reported, refuting the claim
at the concrete input `gender = activeGender = feminine`. -/
theorem setGender_active_noop :
    (handleGenderChange GenderForm.feminine GenderForm.feminine
        (Except.ok sampleSetGenderResponse)).requestIssued = false
    ∧ (handleGenderChange GenderForm.feminine GenderForm.feminine
        (Except.ok sampleSetGenderResponse)).outcome = SetGenderOutcome.noop := by
  constructor <;> rfl

/-- C2 amended.  For every gender distinct from the active one the set-gender
request is issued and its outcome is reported to the caller — the new text and
gender on success, the error message on failure; selecting the currently
active gender is an intentional early-return that issues no request. -/
theorem setGender_reports_outcome (activeGender gender : GenderForm)
    (api : Except String SetGenderResponse) (h : gender ≠ activeGender) :
    (handleGenderChange activeGender gender api).requestIssued = true
    ∧ (handleGenderChange activeGender gender api).outcome =
        (match api with
          | Except.ok r => SetGenderOutcome.changed r.new_text r.new_gender
          | Except.error e => SetGenderOutcome.errorMsg e) := by
  have hb : (gender == activeGender) = false := by
    cases gender <;> cases activeGender <;> first | exact absurd rfl h | rfl
  unfold handleGenderChange
  rw [hb]
  rcases api with e | r <;> exact ⟨rfl, rfl⟩

/-- Witness for C2 amended: switching from masculine to feminine on a
successful response reports the response's text and gender. -/
theorem setGender_reports_outcome_witness :
    (handleGenderChange GenderForm.masculine GenderForm.feminine
        (Except.ok sampleSetGenderResponse)).requestIssued = true
    ∧ (handleGenderChange GenderForm.masculine GenderForm.feminine
        (Except.ok sampleSetGenderResponse)).outcome =
        SetGenderOutcome.changed "texte au féminin" GenderForm.feminine :=
  setGender_reports_outcome GenderForm.masculine GenderForm.feminine
    (Except.ok sampleSetGenderResponse) (by decide)

/-! ### Job status polling (useJob.ts) -/

/-- The `status` field of `JobStatus` from types/index.ts. -/
inductive JobStatusKind
  | pending
  | processing
  | completed
  | failed
deriving DecidableEq, Repr

/-- The `JobStatus` from types/index.ts. -/
structure JobStatus where
  job_id : String
  status : JobStatusKind
  progress : ℕ
  error : Option String
deriving DecidableEq, Repr

/-- The hook state held by `useJob`'s `useState` cells (the `result` and
loading cells are kept abstract as the claim concerns `status`). -/
structure HookState where
  jobId : Option String
  status : Option JobStatus
  error : Option String
  isLoading : Bool
deriving DecidableEq, Repr

/-- Terminal statuses of the job lifecycle. -/
def terminalStatus (status : Option JobStatus) : Bool :=
  match status with
  | none => false
  | some st => st.status == JobStatusKind.completed || st.status == JobStatusKind.failed

/-- The guard of `useJob`'s polling effect (useJob.ts line 24):
`if (!jobId || status?.status === 'completed' || status?.status === 'failed')
return;` — an interval is scheduled exactly when this is true. -/
def pollingScheduled (jobId : Option String) (status : Option JobStatus) : Bool :=
  match jobId with
  | none => false
  | some _ => !terminalStatus status

/-- One firing of the polling interval (useJob.ts lines 28–44), given the
fetched status.  React semantics: the effect re-runs on every `status.status`
change, clearing the old interval and scheduling a new one only when
`pollingScheduled`; a state in which no interval is scheduled takes no poll
step, so the step function is the identity there. -/
def pollStep (s : HookState) (fetched : Except String JobStatus) : HookState :=
  if pollingScheduled s.jobId s.status then
    match fetched with
    | Except.ok newStatus =>
      if newStatus.status == JobStatusKind.completed then
        { s with status := some newStatus, isLoading := false }
      else if newStatus.status == JobStatusKind.failed then
        { s with status := some newStatus
                 error := some (newStatus.error.getD "Job failed")
                 isLoading := false }
      else { s with status := some newStatus }
    | Except.error _ => s
  else s

/-- C7.  Once the observed status is terminal (`completed` or `failed`), the
polling effect's guard refuses to schedule another interval, and consequently
no poll step can change the hook state: polling never overwrites a terminal
status. -/
theorem polling_stops_at_terminal (s : HookState)
    (h : terminalStatus s.status = true) :
    pollingScheduled s.jobId s.status = false
    ∧ ∀ fetched, pollStep s fetched = s := by
  have hp : pollingScheduled s.jobId s.status = false := by
    unfold pollingScheduled
    rcases s.jobId with _ | id
    · rfl
    · simp [h]
  refine ⟨hp, fun fetched => ?_⟩
  unfold pollStep
  rw [hp]
  rfl

/-- Witness for C7: a completed status schedules no interval and a poll
reporting `processing` leaves the state untouched. -/
theorem polling_stops_at_terminal_witness :
    (pollingScheduled (some "job-1")
        (some { job_id := "job-1", status := JobStatusKind.completed
                progress := 100, error := none }) = false)
    ∧ ∀ fetched,
        pollStep
            { jobId := some "job-1"
              status := some { job_id := "job-1", status := JobStatusKind.completed
                               progress := 100, error := none }
              error := none, isLoading := false } fetched =
          { jobId := some "job-1"
            status := some { job_id := "job-1", status := JobStatusKind.completed
                             progress := 100, error := none }
            error := none, isLoading := false } :=
  polling_stops_at_terminal
    { jobId := some "job-1"
      status := some { job_id := "job-1", status := JobStatusKind.completed
                       progress := 100, error := none }
      error := none, isLoading := false } (by decide)

/-! ### Constraint editor (ConfigPanel.tsx) -/

/-- Numeric value of a list of decimal digit characters. -/
def digitsVal (ds : List Char) : ℕ :=
  ds.foldl (fun acc c => acc * 10 + (c.toNat - 48)) 0

/-- JS `parseInt(s)` (radix 10): skip leading whitespace, optional sign,
longest run of decimal digits; `NaN` (here `none`) when no digit is found. -/
def jsParseInt (s : String) : Option ℤ :=
  let cs := s.data.dropWhile Char.isWhitespace
  match cs with
  | '-' :: rest =>
    let ds := rest.takeWhile Char.isDigit
    if ds.isEmpty then none else some (-(digitsVal ds : ℤ))
  | '+' :: rest =>
    let ds := rest.takeWhile Char.isDigit
    if ds.isEmpty then none else some (digitsVal ds : ℤ)
  | _ =>
    let ds := cs.takeWhile Char.isDigit
    if ds.isEmpty then none else some (digitsVal ds : ℤ)

/-- JS `parseFloat(s)`: skip leading whitespace, optional sign, decimal
digits, optional `.` and fraction digits; `NaN` (here `none`) when no digit is
found on either side of the point.  (Exponent suffixes, which no constraint
field needs, are not modelled.) -/
def jsParseFloat (s : String) : Option ℚ :=
  let cs := s.data.dropWhile Char.isWhitespace
  let signed : ℚ × List Char :=
    match cs with
    | '-' :: rest => (-1, rest)
    | '+' :: rest => (1, rest)
    | _ => (1, cs)
  let ip := signed.2.takeWhile Char.isDigit
  let afterInt := signed.2.drop ip.length
  let fp :=
    match afterInt with
    | '.' :: rest => rest.takeWhile Char.isDigit
    | _ => []
  if ip.isEmpty ∧ fp.isEmpty then none
  else some (signed.1 * ((digitsVal ip : ℚ) + (digitsVal fp : ℚ) / 10 ^ fp.length))

/-- JS `x || d` on a number `x`: `d` when `x` is falsy (`NaN` or `0`). -/
def jsOrInt (o : Option ℤ) (default : ℤ) : ℤ :=
  match o with
  | none => default
  | some v => if v = 0 then default else v

/-- JS `x || d` on a `parseFloat` result. -/
def jsOrRat (o : Option ℚ) (default : ℚ) : ℚ :=
  match o with
  | none => default
  | some v => if v = 0 then default else v

/-- The `JobConstraints` from types/index.ts. -/
structure JobConstraints where
  max_lines : ℤ
  max_chars_per_line : ℤ
  max_cps : ℚ
  min_duration_ms : ℤ
deriving DecidableEq, Repr

/-- ConfigPanel.tsx Max Lines `onChange`:
`setConstraints({...constraints, max_lines: parseInt(e.target.value) || 2})`.
The input's `min={1} max={4}` attributes do not constrain typed text. -/
def maxLinesOnChange (constraints : JobConstraints) (value : String) :
    JobConstraints :=
  { constraints with max_lines := jsOrInt (jsParseInt value) 2 }

/-- ConfigPanel.tsx Max Chars/Line `onChange` (`parseInt(...) || 42`). -/
def maxCharsOnChange (constraints : JobConstraints) (value : String) :
    JobConstraints :=
  { constraints with max_chars_per_line := jsOrInt (jsParseInt value) 42 }

/-- ConfigPanel.tsx Max CPS `onChange` (`parseFloat(...) || 17`). -/
def maxCpsOnChange (constraints : JobConstraints) (value : String) :
    JobConstraints :=
  { constraints with max_cps := jsOrRat (jsParseFloat value) 17 }

/-- ConfigPanel.tsx Min Duration `onChange` (`parseInt(...) || 500`). -/
def minDurationOnChange (constraints : JobConstraints) (value : String) :
    JobConstraints :=
  { constraints with min_duration_ms := jsOrInt (jsParseInt value) 500 }

/-- The app's default constraint set (the `||` fallbacks). -/
def defaultConstraints : JobConstraints :=
  { max_lines := 2, max_chars_per_line := 42, max_cps := 17, min_duration_ms := 500 }

/-- An integer `onChange` result stays inside `[lo, hi]`: the parse failed or
yielded `0` (default substituted) or yielded a value already in range. -/
def parsedIntOk (o : Option ℤ) (lo hi : ℤ) : Bool :=
  match o with
  | none => true
  | some v => v == 0 || (lo ≤ v && v ≤ hi)

/-- A `parseFloat` `onChange` result stays inside `[lo, hi]`. -/
def parsedRatOk (o : Option ℚ) (lo hi : ℚ) : Bool :=
  match o with
  | none => true
  | some v => v == 0 || (lo ≤ v && v ≤ hi)

/-- C5 counterexample.  Typing `999` into Max Lines stores `max_lines = 999`:
the handler does not clamp to the spec range 1–4 (the HTML `min`/`max`
attributes do not restrict typed text), so a job can be created with
constraints outside the spec ranges. -/
theorem constraint_editor_no_clamp :
    (maxLinesOnChange defaultConstraints "999").max_lines = 999
    ∧ ¬((maxLinesOnChange defaultConstraints "999").max_lines ≤ 4) := by
  constructor
  · rfl
  · decide

lemma jsOrInt_ok {o : Option ℤ} {lo hi d : ℤ} (hd1 : lo ≤ d) (hd2 : d ≤ hi)
    (h : parsedIntOk o lo hi = true) : lo ≤ jsOrInt o d ∧ jsOrInt o d ≤ hi := by
  match o with
  | none => exact ⟨hd1, hd2⟩
  | some v =>
    unfold parsedIntOk at h
    simp only [Bool.or_eq_true, beq_iff_eq, Bool.and_eq_true, decide_eq_true_eq] at h
    show lo ≤ (if v = 0 then d else v) ∧ (if v = 0 then d else v) ≤ hi
    rcases h with h0 | ⟨hlo, hhi⟩
    · rw [if_pos h0]; exact ⟨hd1, hd2⟩
    · by_cases h0 : v = 0
      · rw [if_pos h0]; exact ⟨hd1, hd2⟩
      · rw [if_neg h0]; exact ⟨hlo, hhi⟩

lemma jsOrRat_ok {o : Option ℚ} {lo hi d : ℚ} (hd1 : lo ≤ d) (hd2 : d ≤ hi)
    (h : parsedRatOk o lo hi = true) : lo ≤ jsOrRat o d ∧ jsOrRat o d ≤ hi := by
  match o with
  | none => exact ⟨hd1, hd2⟩
  | some v =>
    unfold parsedRatOk at h
    simp only [Bool.or_eq_true, beq_iff_eq, Bool.and_eq_true, decide_eq_true_eq] at h
    show lo ≤ (if v = 0 then d else v) ∧ (if v = 0 then d else v) ≤ hi
    rcases h with h0 | ⟨hlo, hhi⟩
    · rw [if_pos h0]; exact ⟨hd1, hd2⟩
    · by_cases h0 : v = 0
      · rw [if_pos h0]; exact ⟨hd1, hd2⟩
      · rw [if_neg h0]; exact ⟨hlo, hhi⟩

/-- C5 amended.  The editor substitutes the built-in default when a field
parses to `NaN` or `0` and otherwise stores the parsed value unclamped; hence
the resulting constraints lie within the spec ranges whenever each typed value
either fails to parse, parses to `0`, or parses into the range — but an
out-of-range parsed value is stored as typed. -/
theorem constraint_editor_ranges (constraints : JobConstraints)
    (s1 s2 s3 s4 : String)
    (h1 : parsedIntOk (jsParseInt s1) 1 4 = true)
    (h2 : parsedIntOk (jsParseInt s2) 20 80 = true)
    (h3 : parsedRatOk (jsParseFloat s3) 10 30 = true)
    (h4 : parsedIntOk (jsParseInt s4) 100 2000 = true) :
    (1 ≤ (maxLinesOnChange constraints s1).max_lines
      ∧ (maxLinesOnChange constraints s1).max_lines ≤ 4)
    ∧ (20 ≤ (maxCharsOnChange constraints s2).max_chars_per_line
      ∧ (maxCharsOnChange constraints s2).max_chars_per_line ≤ 80)
    ∧ (10 ≤ (maxCpsOnChange constraints s3).max_cps
      ∧ (maxCpsOnChange constraints s3).max_cps ≤ 30)
    ∧ (100 ≤ (minDurationOnChange constraints s4).min_duration_ms
      ∧ (minDurationOnChange constraints s4).min_duration_ms ≤ 2000) :=
  ⟨jsOrInt_ok (by decide) (by decide) h1,
   jsOrInt_ok (by decide) (by decide) h2,
   jsOrRat_ok (by norm_num) (by norm_num) h3,
   jsOrInt_ok (by decide) (by decide) h4⟩

/-- The `parseFloat` on the concrete string `"17"`. -/
lemma jsParseFloat_17 : jsParseFloat "17" = some 17 := by
  have h : jsParseFloat "17" =
      some ((1 : ℚ) * (((17 : ℕ) : ℚ) + ((0 : ℕ) : ℚ) / 10 ^ (0 : ℕ))) := rfl
  rw [h]; norm_num

/-- The `parseFloat` on the concrete string `"0.0"`. -/
lemma jsParseFloat_0_0 : jsParseFloat "0.0" = some 0 := by
  have h : jsParseFloat "0.0" =
      some ((1 : ℚ) * (((0 : ℕ) : ℚ) + ((0 : ℕ) : ℚ) / 10 ^ (1 : ℕ))) := rfl
  rw [h]; norm_num

/-- Witness for C5 amended at concrete in-range inputs. -/
theorem constraint_editor_ranges_witness :
    (1 ≤ (maxLinesOnChange defaultConstraints "3").max_lines
      ∧ (maxLinesOnChange defaultConstraints "3").max_lines ≤ 4)
    ∧ (20 ≤ (maxCharsOnChange defaultConstraints "40").max_chars_per_line
      ∧ (maxCharsOnChange defaultConstraints "40").max_chars_per_line ≤ 80)
    ∧ (10 ≤ (maxCpsOnChange defaultConstraints "17").max_cps
      ∧ (maxCpsOnChange defaultConstraints "17").max_cps ≤ 30)
    ∧ (100 ≤ (minDurationOnChange defaultConstraints "500").min_duration_ms
      ∧ (minDurationOnChange defaultConstraints "500").min_duration_ms ≤ 2000) :=
  constraint_editor_ranges defaultConstraints "3" "40" "17" "500"
    (by decide) (by decide)
    (by simp [parsedRatOk, jsParseFloat_17]; norm_num) (by decide)

/-- C9.  A field that parses to `NaN` or to `0` silently stores the built-in
default — `max_lines` 2, `max_chars_per_line` 42, `max_cps` 17,
`min_duration_ms` 500 — rather than the typed value. -/
theorem constraint_editor_defaults (constraints : JobConstraints)
    (s1 s2 s3 s4 : String)
    (h1 : jsParseInt s1 = none ∨ jsParseInt s1 = some 0)
    (h2 : jsParseInt s2 = none ∨ jsParseInt s2 = some 0)
    (h3 : jsParseFloat s3 = none ∨ jsParseFloat s3 = some 0)
    (h4 : jsParseInt s4 = none ∨ jsParseInt s4 = some 0) :
    (maxLinesOnChange constraints s1).max_lines = 2
    ∧ (maxCharsOnChange constraints s2).max_chars_per_line = 42
    ∧ (maxCpsOnChange constraints s3).max_cps = 17
    ∧ (minDurationOnChange constraints s4).min_duration_ms = 500 := by
  refine ⟨?_, ?_, ?_, ?_⟩
  · show jsOrInt (jsParseInt s1) 2 = 2
    rcases h1 with h | h <;> rw [h] <;> rfl
  · show jsOrInt (jsParseInt s2) 42 = 42
    rcases h2 with h | h <;> rw [h] <;> rfl
  · show jsOrRat (jsParseFloat s3) 17 = 17
    rcases h3 with h | h <;> rw [h] <;> simp [jsOrRat]
  · show jsOrInt (jsParseInt s4) 500 = 500
    rcases h4 with h | h <;> rw [h] <;> rfl

/-- Witness for C9: an empty field, a non-numeric field, `0`, and `0.0` all
store the defaults. -/
theorem constraint_editor_defaults_witness :
    (maxLinesOnChange defaultConstraints "").max_lines = 2
    ∧ (maxCharsOnChange defaultConstraints "abc").max_chars_per_line = 42
    ∧ (maxCpsOnChange defaultConstraints "0.0").max_cps = 17
    ∧ (minDurationOnChange defaultConstraints "0").min_duration_ms = 500 :=
  constraint_editor_defaults defaultConstraints "" "abc" "0.0" "0"
    (by decide) (by decide) (Or.inr jsParseFloat_0_0) (by decide)

/-! ### Batch Auto-Fixer (spec §4.6)

The repository snapshot contains only the HTTP wrapper `autoFixAll`
(frontend/src/api/client.ts); the batch engine itself lives in the backend,
outside src/.  It is therefore modelled from the specification below.  The
model is generic over the cue type and the per-cue machinery: `matchingIssues`
is the number of outstanding issues of a cue that pass the request's
issue-type filter (a fresh QC evaluation of that cue), and
`bestApplicableFix` returns the highest-confidence applicable non-manual fix
option together with the cue state after applying it, or `none` when no
option is applicable. -/

/-- Modelled from the spec: the Batch Auto-Fixer's result
(`AutoFixResult` in types/index.ts carries the same counts); the backend
engine that produces it is not under src/. -/
structure BatchAutoFixResult (Cue : Type) where
  fixed_count : ℕ
  failed_count : ℕ
  final_cues : List Cue
  remaining_issues : ℕ

/-- Modelled from the spec: §4.6's iteration, absent from src/.  Cues are
visited in ascending index order; a cue with a matching outstanding issue is
fixed via the best applicable option (consuming budget) or, when no option is
applicable, counted as failed without aborting; the loop stops once the
budget of successful fixes is exhausted, leaving later cues untouched. -/
def autoFixGo {Cue : Type} (matchingIssues : Cue → ℕ)
    (bestApplicableFix : Cue → Option (String × Cue)) :
    List Cue → ℕ → ℕ × ℕ × List Cue
  | [], _ => (0, 0, [])
  | cue :: rest, budget =>
    if budget = 0 then (0, 0, cue :: rest)
    else if 0 < matchingIssues cue then
      match bestApplicableFix cue with
      | some (_, fixedCue) =>
        let r := autoFixGo matchingIssues bestApplicableFix rest (budget - 1)
        (r.1 + 1, r.2.1, fixedCue :: r.2.2)
      | none =>
        let r := autoFixGo matchingIssues bestApplicableFix rest budget
        (r.1, r.2.1 + 1, cue :: r.2.2)
    else
      let r := autoFixGo matchingIssues bestApplicableFix rest budget
      (r.1, r.2.1, cue :: r.2.2)

/-- Modelled from the spec: a fresh full QC pass restricted to the filter —
the total number of matching issues over all cues in their current state. -/
def freshQCPassCount {Cue : Type} (matchingIssues : Cue → ℕ) (cues : List Cue) : ℕ :=
  (cues.map matchingIssues).sum

/-- Modelled from the spec: `autoFix(job, issue_type?, max_fixes)` (§4.6),
absent from src/.  It is a total function — per-cue failures are counted,
never thrown — and `remaining_issues` is recomputed by a fresh full QC pass
after the batch completes, not tracked incrementally. -/
def autoFix {Cue : Type} (matchingIssues : Cue → ℕ)
    (bestApplicableFix : Cue → Option (String × Cue))
    (cues : List Cue) (maxFixes : ℕ) : BatchAutoFixResult Cue :=
  let r := autoFixGo matchingIssues bestApplicableFix cues maxFixes
  { fixed_count := r.1
    failed_count := r.2.1
    final_cues := r.2.2
    remaining_issues := freshQCPassCount matchingIssues r.2.2 }

lemma autoFixGo_conservation {Cue : Type} (mi : Cue → ℕ)
    (bf : Cue → Option (String × Cue)) :
    ∀ (cues : List Cue) (budget : ℕ),
      (autoFixGo mi bf cues budget).1 < budget →
      (autoFixGo mi bf cues budget).1 + (autoFixGo mi bf cues budget).2.1
        = cues.countP (fun c => decide (0 < mi c)) := by
  intro cues
  induction cues with
  | nil => intro budget _; rfl
  | cons cue rest ih =>
    intro budget hb
    by_cases h0 : budget = 0
    · rw [h0] at hb
      simp only [autoFixGo, if_pos rfl] at hb
      exact absurd hb (Nat.not_lt_zero _)
    · by_cases hm : 0 < mi cue
      · have hm2 : decide (0 < mi cue) = true := by simpa using hm
        rcases hbf : bf cue with _ | p
        · simp only [autoFixGo, if_neg h0, if_pos hm, hbf] at hb ⊢
          have hih := ih budget hb
          simp [List.countP_cons, hm2]
          omega
        · obtain ⟨ft, fixedCue⟩ := p
          simp only [autoFixGo, if_neg h0, if_pos hm, hbf] at hb ⊢
          have hlt : (autoFixGo mi bf rest (budget - 1)).1 < budget - 1 := by omega
          have hih := ih (budget - 1) hlt
          simp [List.countP_cons, hm2]
          omega
      · have hm2 : decide (0 < mi cue) = false := by simpa using hm
        simp only [autoFixGo, if_neg h0, if_neg hm] at hb ⊢
        have hih := ih budget hb
        simp [List.countP_cons, hm2]
        omega

/-- C6 counterexample.  With two cues both carrying one matching issue, both
fixable, and `max_fixes = 1`, the batch fixes one cue and stops on budget
exhaustion: `fixed_count + failed_count = 1` while the number of cues with at
least one matching issue at the start of the batch is `2` — refuting the
unconditional conservation equality (this instance is the spec's own
Scenario 3 shrunk to two cues). -/
theorem autoFix_budget_breaks_conservation :
    ((autoFix (fun hasIssue : Bool => if hasIssue then 1 else 0)
        (fun _ => some ("compress", false)) [true, true] 1).fixed_count
      + (autoFix (fun hasIssue : Bool => if hasIssue then 1 else 0)
        (fun _ => some ("compress", false)) [true, true] 1).failed_count = 1)
    ∧ ([true, true].countP
        (fun c => decide (0 < (if c then 1 else 0 : ℕ))) = 2)
    ∧ ¬((autoFix (fun hasIssue : Bool => if hasIssue then 1 else 0)
        (fun _ => some ("compress", false)) [true, true] 1).fixed_count
      + (autoFix (fun hasIssue : Bool => if hasIssue then 1 else 0)
        (fun _ => some ("compress", false)) [true, true] 1).failed_count
      = [true, true].countP
        (fun c => decide (0 < (if c then 1 else 0 : ℕ)))) := by
  refine ⟨rfl, rfl, ?_⟩
  decide

/-- C6 amended.  Whenever the batch terminates without exhausting its budget
(`fixed_count < max_fixes`), every cue with a matching outstanding issue at
the start was attempted exactly once, so
`fixed_count + failed_count` equals the number of such cues — a cue with no
applicable option increments `failed_count` and the iteration continues, never
aborting (the result is a total function of its inputs); when the budget stops
the batch early the sum counts only the attempted cues.  `remaining_issues`
always equals a fresh full QC pass over the final cue states restricted to the
same issue-type filter. -/
theorem autoFix_conservation {Cue : Type} (matchingIssues : Cue → ℕ)
    (bestApplicableFix : Cue → Option (String × Cue))
    (cues : List Cue) (maxFixes : ℕ)
    (h : (autoFix matchingIssues bestApplicableFix cues maxFixes).fixed_count
      < maxFixes) :
    (autoFix matchingIssues bestApplicableFix cues maxFixes).fixed_count
      + (autoFix matchingIssues bestApplicableFix cues maxFixes).failed_count
      = cues.countP (fun c => decide (0 < matchingIssues c))
    ∧ (autoFix matchingIssues bestApplicableFix cues maxFixes).remaining_issues
      = freshQCPassCount matchingIssues
          (autoFix matchingIssues bestApplicableFix cues maxFixes).final_cues :=
  ⟨autoFixGo_conservation matchingIssues bestApplicableFix cues maxFixes h, rfl⟩

/-- Witness for C6 amended: three cues, of which two have a matching issue and
are fixable, with a slack budget of 50 — both are attempted, none fail, and
the conservation equality holds. -/
theorem autoFix_conservation_witness :
    ((autoFix (fun hasIssue : Bool => if hasIssue then 1 else 0)
        (fun _ => some ("compress", false)) [true, false, true] 50).fixed_count
      + (autoFix (fun hasIssue : Bool => if hasIssue then 1 else 0)
        (fun _ => some ("compress", false)) [true, false, true] 50).failed_count
      = [true, false, true].countP
          (fun c => decide (0 < (if c then 1 else 0 : ℕ))))
    ∧ ((autoFix (fun hasIssue : Bool => if hasIssue then 1 else 0)
        (fun _ => some ("compress", false)) [true, false, true] 50).remaining_issues
      = freshQCPassCount (fun hasIssue : Bool => if hasIssue then 1 else 0)
          (autoFix (fun hasIssue : Bool => if hasIssue then 1 else 0)
            (fun _ => some ("compress", false)) [true, false, true] 50).final_cues) :=
  autoFix_conservation (fun hasIssue : Bool => if hasIssue then 1 else 0)
    (fun _ => some ("compress", false)) [true, false, true] 50 (by decide)

end Translateme
